import Mathlib

/-
Verification development for the a4-to-a3 tool (src/main.py).

The script converts a two-page A4 scan of an A3 document into one stitched
image.  The script's own logic — the page-count check, the 180-degree
rotation of the second page, the search-band rectangles passed to the
stitching plugin, the per-document error handling, the deletion of the
intermediate page files, and the resize/canvas arithmetic — is embedded
directly from the source.  The pixel-level overlap estimation and seam
blending run inside the external ImageJ Pairwise-stitching plugin that the
script drives; those two components are modelled from the specification
(their definitions say so explicitly).

Numeric conventions: Python ints and floats appearing in the script are
modelled as rationals (exact arithmetic); image pixel buffers are modelled
either as nested lists (for the page rasters) or as intensity functions
over integer coordinates (for the spec-modelled stitching core).
-/

/-- Raster for the spec-modelled stitching core: a width, a height and an
intensity function over integer coordinates (origin top-left). -/
structure RasterImage where
  width : Nat
  height : Nat
  pix : Int → Int → ℚ

/-- Modelled from the spec: the OverlapEstimator result — horizontal shift
`dx`, optional vertical shift `dy`, and a confidence score. -/
structure OverlapOffset where
  dx : Int
  dy : Int
  confidence : ℚ
deriving DecidableEq, Repr

/-- Shallow embedding of the 180-degree rotation applied to the second page
(src/main.py line 138, `right_page.rotate(180)`): row order and column
order are both reversed and pixel values are unchanged. -/
def rotate180 {α : Type} (img : List (List α)) : List (List α) :=
  (img.map List.reverse).reverse

/-- Error raised by `extract_images_from_pdf` when the PDF does not have
exactly two pages (src/main.py lines 112-114). -/
inductive ExtractImagesFromPdfException
  | wrongPageCount (n : Nat)
deriving DecidableEq, Repr

/-- Embedding of `extract_images_from_pdf` (src/main.py lines 94-144) over
the decoded page rasters: raises unless the document has exactly two pages;
with two pages it returns the first page unchanged as the left image and
the second page, rotated 180 degrees, as the right image. -/
def extract_images_from_pdf {α : Type} (pages : List (List (List α))) :
    Except ExtractImagesFromPdfException (List (List α) × List (List α)) :=
  match pages with
  | [l, r] => .ok (l, rotate180 r)
  | _ => .error (.wrongPageCount pages.length)

/-- Failure of one document's pipeline, as distinguished by the `except`
clauses of `process_pdf` (src/main.py lines 81-86): the two specifically
caught exception types, the levels-adjustment exception, and any other
exception (both of the latter hit the generic `except Exception`). -/
inductive DocError
  | extractImages
  | stitchImage
  | adjustLevels
  | other
deriving DecidableEq, Repr

/-- What `process_pdf` logs for one document before returning normally. -/
inductive DocReport
  | success
  | extractionFailed
  | stitchFailed
  | fatalError
deriving DecidableEq, Repr

/-- The body of `process_pdf`'s try-block (src/main.py lines 68-80):
extraction, then stitching, then levels adjustment, each of which may fail;
a failure aborts the rest of the body. -/
def pdf_stages (e s a : Except DocError Unit) : Except DocError Unit :=
  e.bind (fun _ => s.bind (fun _ => a))

/-- Embedding of `process_pdf` (src/main.py lines 65-91): runs the pipeline
body and catches every failure — `ExtractImagesFromPdfException` and
`StitchImageException` in their own handlers, everything else (including
`AdjustLevelsException`) in the generic `except Exception` handler — so the
function always returns a report instead of propagating an error. -/
def process_pdf (e s a : Except DocError Unit) : Except DocError DocReport :=
  match pdf_stages e s a with
  | .ok _ => .ok .success
  | .error .extractImages => .ok .extractionFailed
  | .error .stitchImage => .ok .stitchFailed
  | .error .adjustLevels => .ok .fatalError
  | .error .other => .ok .fatalError

/-- Embedding of the batch dispatch in `main` (src/main.py line 62): each
input document is processed by `process_pdf` on its own; a document is
represented by the outcomes of its three pipeline stages. -/
def run_batch
    (docs : List (Except DocError Unit × Except DocError Unit × Except DocError Unit)) :
    List (Except DocError DocReport) :=
  docs.map (fun d => process_pdf d.1 d.2.1 d.2.2)

/-- An ImageJ `makeRectangle(x, y, w, h)` region: origin top-left, spanning
x-range [x, x + w) and y-range [y, y + h). -/
structure Rect where
  x : ℚ
  y : ℚ
  w : ℚ
  h : ℚ
deriving DecidableEq, Repr

/-- Embedding of the search rectangle placed on the left page
(src/main.py line 160): `makeRectangle(width * (1.0 - threshold), 50,
threshold * width, height - 50)`. -/
def left_band_rect (width height t : ℚ) : Rect :=
  ⟨width * (1 - t), 50, t * width, height - 50⟩

/-- Embedding of the search rectangle placed on the right page
(src/main.py line 163): `makeRectangle(0, 50, threshold * width,
height - 50)`. -/
def right_band_rect (width height t : ℚ) : Rect :=
  ⟨0, 50, t * width, height - 50⟩

/-- Outcome of running the generated ImageJ script (src/main.py line 171). -/
inductive ImageJOutcome
  | success
  | failure
deriving DecidableEq, Repr

/-- Error raised by `stitch_images` when running the ImageJ script fails
(src/main.py line 173). -/
inductive StitchImageException
  | imagejFailed
deriving DecidableEq, Repr

/-- Presence of the two intermediate page files on disk. -/
structure WorkFiles where
  left_exists : Bool
  right_exists : Bool
deriving DecidableEq, Repr

/-- Embedding of the control flow of `stitch_images` (src/main.py lines
170-178): if running ImageJ fails, `StitchImageException` is raised before
the deletion code is reached, so the files are untouched; on success the
two intermediate page files are unlinked unless `keep_files` is set. -/
def stitch_images (imagej : ImageJOutcome) (keep_files : Bool) (files : WorkFiles) :
    WorkFiles × Except StitchImageException Unit :=
  match imagej with
  | .failure => (files, .error .imagejFailed)
  | .success =>
      if keep_files then (files, .ok ())
      else ({ left_exists := false, right_exists := false }, .ok ())

/-- The module constant `OUTPUT_FILE_SIZE = 2000` (src/main.py line 24). -/
def OUTPUT_FILE_SIZE : ℚ := 2000

/-- The geometry computed by `adjust_levels_resize`: the width and height
passed to the ImageJ `Size...` command and the `biggest_side` passed to the
`Canvas Size...` command. -/
structure ResizePlan where
  width : ℚ
  height : ℚ
  biggest_side : ℚ
deriving DecidableEq, Repr

/-- Embedding of the dimension arithmetic of `adjust_levels_resize`
(src/main.py lines 188-197): if either side exceeds `OUTPUT_FILE_SIZE`,
both sides are multiplied by `OUTPUT_FILE_SIZE / width` when the width is
the larger side and by `OUTPUT_FILE_SIZE / height` otherwise, and the
square canvas side is `OUTPUT_FILE_SIZE`; otherwise the dimensions are kept
and the square canvas side is the larger of the two. -/
def adjust_levels_resize (width height : ℚ) : ResizePlan :=
  if OUTPUT_FILE_SIZE < width ∨ OUTPUT_FILE_SIZE < height then
    if height < width then
      ⟨width * (OUTPUT_FILE_SIZE / width), height * (OUTPUT_FILE_SIZE / width),
        OUTPUT_FILE_SIZE⟩
    else
      ⟨width * (OUTPUT_FILE_SIZE / height), height * (OUTPUT_FILE_SIZE / height),
        OUTPUT_FILE_SIZE⟩
  else
    ⟨width, height, if height < width then width else height⟩

/-- Modelled from the spec: `AlignmentError`, raised when no candidate
shift's confidence exceeds the configured minimum threshold (§4.2, §7).
The check itself runs inside the external ImageJ Pairwise-stitching
plugin, not in src/. -/
inductive AlignmentError
  | belowThreshold
deriving DecidableEq, Repr

/-- Modelled from the spec: `BlendError`, raised when the computed overlap
width is non-positive (§4.3).  Raised by the external stitching plugin,
not in src/. -/
inductive BlendError
  | invalidOverlap
deriving DecidableEq, Repr

/-- A failure of the spec-modelled stitching pipeline. -/
inductive PipelineError
  | alignment (e : AlignmentError)
  | blend (e : BlendError)
deriving DecidableEq, Repr

/-- Modelled from the spec: the overlap width implied by a horizontal shift
`dx` — the part of the left image, from column `dx` to its trailing edge,
that the right image covers (§4.3).  The computation lives in the external
stitching plugin, not in src/. -/
def overlap_width (left : RasterImage) (off : OverlapOffset) : Int :=
  (left.width : Int) - off.dx

/-- Modelled from the spec: the SeamBlender composite (§4.3), which the
external stitching plugin produces ("fusion_method=[Linear Blending]").
Canvas width is `left.width + right.width - overlap_width`, height is the
larger of the two heights; left-only pixels are copied verbatim, pixels in
the overlap band are a linear alpha blend with the left weight ramping from
one at the band's left edge to zero at its right edge, and remaining pixels
come from the right image shifted by `(dx, dy)`. -/
def seam_blend_image (left right : RasterImage) (off : OverlapOffset) : RasterImage where
  width := ((left.width : Int) + (right.width : Int) - overlap_width left off).toNat
  height := max left.height right.height
  pix := fun x y =>
    if x < off.dx then left.pix x y
    else if x < (left.width : Int) then
      ((((left.width : Int) - x : Int) : ℚ) / ((overlap_width left off : Int) : ℚ)) *
          left.pix x y +
        (1 - (((left.width : Int) - x : Int) : ℚ) / ((overlap_width left off : Int) : ℚ)) *
          right.pix (x - off.dx) (y - off.dy)
    else right.pix (x - off.dx) (y - off.dy)

/-- Modelled from the spec: the SeamBlender entry point (§4.3), performed by
the external stitching plugin — fails with `BlendError` when the computed
overlap width is non-positive, otherwise returns the blended composite. -/
def seam_blend (left right : RasterImage) (off : OverlapOffset) :
    Except BlendError RasterImage :=
  if overlap_width left off ≤ 0 then .error .invalidOverlap
  else .ok (seam_blend_image left right off)

/-- Modelled from the spec: candidate selection of the OverlapEstimator
(§4.2), performed by the external stitching plugin — among the candidate
shifts, each a pair of a shift `dx` and its correlation score, select the
one maximizing the score, ties broken by preferring the smallest `|dx|`. -/
def better_candidate (acc d : Int × ℚ) : Int × ℚ :=
  if acc.2 < d.2 ∨ (acc.2 = d.2 ∧ |d.1| < |acc.1|) then d else acc

/-- Modelled from the spec: the winner among the candidate shifts — the
fold keeps the better of the accumulator and each next candidate. -/
def pick_best (cands : List (Int × ℚ)) : Option (Int × ℚ) :=
  match cands with
  | [] => none
  | c :: rest => some (rest.foldl better_candidate c)

/-- Modelled from the spec: the OverlapEstimator (§4.2), performed by the
external stitching plugin — the winning candidate's score becomes the
confidence; when it does not exceed the minimum threshold (or there are no
candidates) the estimator fails with `AlignmentError`. -/
def estimate_overlap (cands : List (Int × ℚ)) (min_conf : ℚ) :
    Except AlignmentError OverlapOffset :=
  match pick_best cands with
  | none => .error .belowThreshold
  | some c => if min_conf < c.2 then .ok ⟨c.1, 0, c.2⟩ else .error .belowThreshold

/-- Modelled from the spec: the stitching pipeline stage order (§2) as run
by the external stitching plugin — overlap estimation first, then, only on
success, seam blending. -/
def stitch_pipeline (left right : RasterImage) (cands : List (Int × ℚ)) (min_conf : ℚ) :
    Except PipelineError RasterImage :=
  match estimate_overlap cands min_conf with
  | .error e => .error (.alignment e)
  | .ok off =>
      match seam_blend left right off with
      | .error e => .error (.blend e)
      | .ok img => .ok img

/-- Concrete left page raster used by witnesses. -/
def pageA : List (List ℚ) := [[0, 1], [2, 3]]

/-- Concrete second page raster used by witnesses. -/
def pageB : List (List ℚ) := [[4, 5], [6, 7]]

/-- Concrete left image used by witnesses. -/
def imgL : RasterImage := ⟨100, 200, fun _ _ => 0⟩

/-- Concrete right image used by witnesses. -/
def imgR : RasterImage := ⟨80, 150, fun _ _ => 0⟩

/-- Concrete overlap offset used by witnesses. -/
def offW : OverlapOffset := ⟨30, 0, 1⟩

/-- Candidate list whose scores all lie below the threshold, used by the
claim-one witness. -/
def candsLow : List (Int × ℚ) := [(30, 0)]

/-- Candidate list with a high-confidence candidate, used by the claim-one
witness. -/
def candsGood : List (Int × ℚ) := [(30, 1)]

/-- A fold that at every step keeps either the accumulator or the new
element ends at the initial value or at a list element. -/
lemma foldl_choice_mem {α : Type} (g : α → α → α) (hg : ∀ a b, g a b = a ∨ g a b = b)
    (c : α) (l : List α) : l.foldl g c = c ∨ l.foldl g c ∈ l := by
  induction l generalizing c with
  | nil => exact Or.inl rfl
  | cons d t ih =>
      rw [List.foldl_cons]
      rcases ih (g c d) with h | h
      · rcases hg c d with h2 | h2
        · rw [h, h2]; exact Or.inl rfl
        · rw [h, h2]; exact Or.inr (List.mem_cons_self d t)
      · exact Or.inr (List.mem_cons_of_mem d h)

/-- The candidate selected by `pick_best` is one of the candidates. -/
lemma pick_best_mem (cands : List (Int × ℚ)) (c : Int × ℚ)
    (h : pick_best cands = some c) : c ∈ cands := by
  cases cands with
  | nil => simp [pick_best] at h
  | cons a t =>
      simp only [pick_best, Option.some.injEq] at h
      have hg : ∀ acc d : Int × ℚ,
          better_candidate acc d = acc ∨ better_candidate acc d = d := by
        intro acc d
        by_cases hc : acc.2 < d.2 ∨ (acc.2 = d.2 ∧ |d.1| < |acc.1|) <;>
          simp [better_candidate, hc]
      rcases foldl_choice_mem better_candidate hg a t with h2 | h2
      · rw [← h, h2]; exact List.mem_cons_self a t
      · rw [← h]; exact List.mem_cons_of_mem a h2

/-- When every candidate's score is at or below the minimum confidence, the
estimator fails with `AlignmentError`. -/
lemma estimate_overlap_below (cands : List (Int × ℚ)) (m : ℚ)
    (hall : ∀ c ∈ cands, c.2 ≤ m) :
    estimate_overlap cands m = .error .belowThreshold := by
  cases hp : pick_best cands with
  | none => simp only [estimate_overlap, hp]
  | some c =>
      have hc := pick_best_mem cands c hp
      simp only [estimate_overlap, hp]
      rw [if_neg (not_lt.mpr (hall c hc))]

/-- A successful overlap estimate carries a confidence strictly above the
minimum threshold. -/
lemma estimate_overlap_conf (cands : List (Int × ℚ)) (m : ℚ) (off : OverlapOffset)
    (h : estimate_overlap cands m = .ok off) : m < off.confidence := by
  cases hp : pick_best cands with
  | none => simp [estimate_overlap, hp] at h
  | some c =>
      simp only [estimate_overlap, hp] at h
      by_cases hm : m < c.2
      · rw [if_pos hm] at h
        have h2 := Except.ok.inj h
        rw [← h2]
        exact hm
      · rw [if_neg hm] at h
        exact Except.noConfusion h

/-- Branch of `adjust_levels_resize` where the image already fits. -/
lemma adjust_levels_resize_of_le (w h : ℚ) (hle : max w h ≤ OUTPUT_FILE_SIZE) :
    adjust_levels_resize w h = ⟨w, h, max w h⟩ := by
  rw [max_le_iff] at hle
  rw [adjust_levels_resize, if_neg (by push_neg; exact hle)]
  rcases lt_or_le h w with hlt | hge
  · rw [if_pos hlt, max_eq_left (le_of_lt hlt)]
  · rw [if_neg (not_lt.mpr hge), max_eq_right hge]

/-- Branch of `adjust_levels_resize` where the image is too large: both
sides are multiplied by `OUTPUT_FILE_SIZE / max w h`. -/
lemma adjust_levels_resize_of_gt (w h : ℚ) (hgt : OUTPUT_FILE_SIZE < max w h) :
    adjust_levels_resize w h =
      ⟨w * (OUTPUT_FILE_SIZE / max w h), h * (OUTPUT_FILE_SIZE / max w h),
        OUTPUT_FILE_SIZE⟩ := by
  rw [lt_max_iff] at hgt
  rw [adjust_levels_resize, if_pos hgt]
  rcases lt_or_le h w with hlt | hge
  · rw [if_pos hlt, max_eq_left (le_of_lt hlt)]
  · rw [if_neg (not_lt.mpr hge), max_eq_right hge]

/-- Claim C9: applying the 180-degree orientation rotation twice returns
the original image; the rotation (row and column order reversed, pixel
values untouched) is total and self-inverse. -/
theorem rotate180_involutive {α : Type} (img : List (List α)) :
    rotate180 (rotate180 img) = img := by
  simp [rotate180, List.map_reverse, List.map_map, Function.comp_def]

/-- Claim C5: page decoding fails with the extraction error exactly when
the document does not contain two pages; with exactly two pages it returns
them in order — the first page as the left image and the second page (after
the fixed orientation rotation) as the right image. -/
theorem extract_images_page_count {α : Type} (pages : List (List (List α))) :
    (pages.length ≠ 2 →
      extract_images_from_pdf pages = .error (.wrongPageCount pages.length)) ∧
    (∀ l r, pages = [l, r] →
      extract_images_from_pdf pages = .ok (l, rotate180 r)) := by
  constructor
  · intro hne
    match pages, hne with
    | [], _ => rfl
    | [a], _ => rfl
    | a :: b :: d :: t, _ => rfl
    | [a, b], hne => exact absurd rfl hne
  · intro l r hp
    subst hp
    rfl

/-- Concrete instantiation of `extract_images_page_count`. -/
theorem extract_images_page_count_witness :
    extract_images_from_pdf ([] : List (List (List ℚ))) = .error (.wrongPageCount 0) ∧
    extract_images_from_pdf [pageA, pageB] = .ok (pageA, rotate180 pageB) :=
  ⟨(extract_images_page_count ([] : List (List (List ℚ)))).1 (by decide),
   (extract_images_page_count [pageA, pageB]).2 pageA pageB rfl⟩

/-- Claim C4: the per-document driver turns every pipeline failure —
extraction, stitch, levels, or any other error — into a report instead of
propagating it, and the batch maps every document to its own report, so one
document's failure never affects another document's processing. -/
theorem process_pdf_catches_all
    (docs : List (Except DocError Unit × Except DocError Unit × Except DocError Unit)) :
    (∀ e s a : Except DocError Unit, ∃ r : DocReport, process_pdf e s a = .ok r) ∧
    (∀ i : Nat,
      (run_batch docs)[i]? = (docs[i]?).map (fun d => process_pdf d.1 d.2.1 d.2.2)) := by
  constructor
  · intro e s a
    cases hps : pdf_stages e s a with
    | ok u => exact ⟨.success, by simp [process_pdf, hps]⟩
    | error err =>
        cases err with
        | extractImages => exact ⟨.extractionFailed, by simp [process_pdf, hps]⟩
        | stitchImage => exact ⟨.stitchFailed, by simp [process_pdf, hps]⟩
        | adjustLevels => exact ⟨.fatalError, by simp [process_pdf, hps]⟩
        | other => exact ⟨.fatalError, by simp [process_pdf, hps]⟩
  · intro i
    simp [run_batch]

/-- Claim C10: when the ImageJ run fails the stitch step raises before the
deletion code, leaving both intermediate page files in place; deletion of
the two files happens only after a successful run and only with
`keep_files` unset, and with `keep_files` set they are always retained. -/
theorem stitch_files_deletion (o : ImageJOutcome) (keep : Bool) (files : WorkFiles) :
    (o = .failure → stitch_images o keep files = (files, .error .imagejFailed)) ∧
    (o = .success → keep = true → stitch_images o keep files = (files, .ok ())) ∧
    (o = .success → keep = false →
      stitch_images o keep files = (⟨false, false⟩, .ok ())) := by
  refine ⟨?_, ?_, ?_⟩
  · intro ho; subst ho; rfl
  · intro ho hk; subst ho; subst hk; rfl
  · intro ho hk; subst ho; subst hk; rfl

/-- Concrete instantiation of `stitch_files_deletion`. -/
theorem stitch_files_deletion_witness :
    stitch_images .failure false ⟨true, true⟩ = (⟨true, true⟩, .error .imagejFailed) ∧
    stitch_images .success true ⟨true, true⟩ = (⟨true, true⟩, .ok ()) ∧
    stitch_images .success false ⟨true, true⟩ = (⟨false, false⟩, .ok ()) :=
  ⟨(stitch_files_deletion .failure false ⟨true, true⟩).1 rfl,
   (stitch_files_deletion .success true ⟨true, true⟩).2.1 rfl rfl,
   (stitch_files_deletion .success false ⟨true, true⟩).2.2 rfl rfl⟩

/-- Claim C2 (counterexample): the claim says the search strips exclude a
vertical margin of 50 pixels at BOTH the top and the bottom border, which
would make the strip end at `height - 50`; on a 1000 x 600 page with band
fraction 1/10 the strip placed by the code ends at `y + h = 600`, the
bottom border itself, not at 550. -/
theorem band_margin_counterexample :
    ¬ ((left_band_rect 1000 600 (1/10)).y + (left_band_rect 1000 600 (1/10)).h =
        600 - 50) := by
  norm_num [left_band_rect]

/-- Claim C2 (amended): the correlation search strips are the trailing-edge
strip of the left image (x from `W * (1 - t)` to `W`) and the leading-edge
strip of the right image (x from 0 to `t * W`), each excluding a vertical
margin of 50 pixels at the top border only — each strip starts at y = 50
and extends to the bottom border y = H. -/
theorem band_rects_spec (W H t : ℚ) :
    (left_band_rect W H t).x = W * (1 - t) ∧
    (left_band_rect W H t).x + (left_band_rect W H t).w = W ∧
    (left_band_rect W H t).y = 50 ∧
    (left_band_rect W H t).y + (left_band_rect W H t).h = H ∧
    (right_band_rect W H t).x = 0 ∧
    (right_band_rect W H t).x + (right_band_rect W H t).w = t * W ∧
    (right_band_rect W H t).y = 50 ∧
    (right_band_rect W H t).y + (right_band_rect W H t).h = H := by
  refine ⟨rfl, ?_, rfl, ?_, rfl, ?_, rfl, ?_⟩ <;>
    simp only [left_band_rect, right_band_rect] <;> ring

/-- Claim C6: the square-padded output's side length is exactly
`min(max(width, height), OUTPUT_FILE_SIZE)`. -/
theorem resize_square_side (w h : ℚ) :
    (adjust_levels_resize w h).biggest_side = min (max w h) OUTPUT_FILE_SIZE := by
  rcases le_or_lt (max w h) OUTPUT_FILE_SIZE with hle | hgt
  · rw [adjust_levels_resize_of_le w h hle]
    exact (min_eq_left hle).symm
  · rw [adjust_levels_resize_of_gt w h hgt]
    exact (min_eq_right (le_of_lt hgt)).symm

/-- Claim C7: when `max(width, height)` exceeds `OUTPUT_FILE_SIZE` both
dimensions are scaled by the single factor
`OUTPUT_FILE_SIZE / max(width, height)`, so the larger side becomes exactly
`OUTPUT_FILE_SIZE` and the aspect ratio is preserved; otherwise the
dimensions are left unchanged. -/
theorem resize_scaling (w h : ℚ) :
    (OUTPUT_FILE_SIZE < max w h →
      (adjust_levels_resize w h).width = w * (OUTPUT_FILE_SIZE / max w h) ∧
      (adjust_levels_resize w h).height = h * (OUTPUT_FILE_SIZE / max w h) ∧
      max (adjust_levels_resize w h).width (adjust_levels_resize w h).height =
        OUTPUT_FILE_SIZE ∧
      (adjust_levels_resize w h).width * h = (adjust_levels_resize w h).height * w) ∧
    (max w h ≤ OUTPUT_FILE_SIZE →
      (adjust_levels_resize w h).width = w ∧ (adjust_levels_resize w h).height = h) := by
  constructor
  · intro hgt
    have hS : (0 : ℚ) < OUTPUT_FILE_SIZE := by norm_num [OUTPUT_FILE_SIZE]
    have hm : (0 : ℚ) < max w h := lt_trans hS hgt
    have hm0 : max w h ≠ 0 := ne_of_gt hm
    rw [adjust_levels_resize_of_gt w h hgt]
    refine ⟨rfl, rfl, ?_, by ring⟩
    have hc : (0 : ℚ) ≤ OUTPUT_FILE_SIZE / max w h := le_of_lt (div_pos hS hm)
    show max (w * (OUTPUT_FILE_SIZE / max w h)) (h * (OUTPUT_FILE_SIZE / max w h)) =
      OUTPUT_FILE_SIZE
    rw [← max_mul_of_nonneg w h hc]
    field_simp
  · intro hle
    rw [adjust_levels_resize_of_le w h hle]
    exact ⟨rfl, rfl⟩

/-- Concrete instantiation of `resize_scaling`. -/
theorem resize_scaling_witness :
    ((adjust_levels_resize 3000 1000).width = 3000 * (OUTPUT_FILE_SIZE / max 3000 1000) ∧
      (adjust_levels_resize 3000 1000).height = 1000 * (OUTPUT_FILE_SIZE / max 3000 1000) ∧
      max (adjust_levels_resize 3000 1000).width (adjust_levels_resize 3000 1000).height =
        OUTPUT_FILE_SIZE ∧
      (adjust_levels_resize 3000 1000).width * 1000 =
        (adjust_levels_resize 3000 1000).height * 3000) ∧
    ((adjust_levels_resize 500 400).width = 500 ∧
      (adjust_levels_resize 500 400).height = 400) :=
  ⟨(resize_scaling 3000 1000).1 (by norm_num [OUTPUT_FILE_SIZE, max_def]),
   (resize_scaling 500 400).2 (by norm_num [OUTPUT_FILE_SIZE, max_def])⟩

/-- Claim C8 (counterexample): the claim says the levels stage never alters
geometry, yet on a 3000 x 1000 composite the stage's own resize arithmetic
scales the image down to 2000 x (2000/3), so the saved output does not keep
the input's width and height. -/
theorem levels_resize_changes_dims :
    ¬ ((adjust_levels_resize 3000 1000).width = 3000 ∧
       (adjust_levels_resize 3000 1000).height = 1000) := by
  norm_num [adjust_levels_resize, OUTPUT_FILE_SIZE]

/-- Claim C8 (amended): the stage keeps the composite's width and height
exactly when `max(width, height) ≤ OUTPUT_FILE_SIZE`; when the composite is
larger, the stage rescales both dimensions (by
`OUTPUT_FILE_SIZE / max(width, height)`), so it is not purely tonal. -/
theorem levels_resize_dims_iff (w h : ℚ) (hw : 0 < w) :
    ((adjust_levels_resize w h).width = w ∧ (adjust_levels_resize w h).height = h) ↔
      max w h ≤ OUTPUT_FILE_SIZE := by
  constructor
  · intro hd
    by_contra hc
    push_neg at hc
    rw [adjust_levels_resize_of_gt w h hc] at hd
    have h1 : w * (OUTPUT_FILE_SIZE / max w h) = w := hd.1
    have hS : (0 : ℚ) < OUTPUT_FILE_SIZE := by norm_num [OUTPUT_FILE_SIZE]
    have hm : (0 : ℚ) < max w h := lt_trans hS hc
    have h2 : OUTPUT_FILE_SIZE / max w h = 1 :=
      mul_left_cancel₀ (ne_of_gt hw) (h1.trans (mul_one w).symm)
    have h3 : OUTPUT_FILE_SIZE = max w h := (div_eq_one_iff_eq (ne_of_gt hm)).mp h2
    rw [h3] at hc
    exact lt_irrefl _ hc
  · intro hle
    rw [adjust_levels_resize_of_le w h hle]
    exact ⟨rfl, rfl⟩

/-- Concrete instantiation of `levels_resize_dims_iff`. -/
theorem levels_resize_dims_iff_witness :
    ((adjust_levels_resize 500 400).width = 500 ∧
      (adjust_levels_resize 500 400).height = 400) ↔
      max (500 : ℚ) 400 ≤ OUTPUT_FILE_SIZE :=
  levels_resize_dims_iff 500 400 (by norm_num)

/-- Claim C3: a successfully blended composite has width exactly
`left.width + right.width - overlap_width` and height
`max(left.height, right.height)`. -/
theorem seam_blend_dims (left right : RasterImage) (off : OverlapOffset)
    (img : RasterImage) (hdx : 0 ≤ off.dx)
    (h : seam_blend left right off = .ok img) :
    (img.width : Int) = (left.width : Int) + right.width - overlap_width left off ∧
    img.height = max left.height right.height := by
  rw [seam_blend] at h
  by_cases how : overlap_width left off ≤ 0
  · rw [if_pos how] at h
    exact Except.noConfusion h
  · rw [if_neg how] at h
    have h2 := Except.ok.inj h
    subst h2
    constructor
    · have hnn : (0 : Int) ≤ (left.width : Int) + right.width - overlap_width left off := by
        simp only [overlap_width]
        omega
      simp only [seam_blend_image]
      rw [Int.toNat_of_nonneg hnn]
    · simp only [seam_blend_image]

/-- Concrete instantiation of `seam_blend_dims`. -/
theorem seam_blend_dims_witness :
    ((seam_blend_image imgL imgR offW).width : Int) =
      (imgL.width : Int) + imgR.width - overlap_width imgL offW ∧
    (seam_blend_image imgL imgR offW).height = max imgL.height imgR.height :=
  seam_blend_dims imgL imgR offW (seam_blend_image imgL imgR offW) (by decide) rfl

/-- Claim C1: the seam-blending step runs only when the estimated overlap's
confidence exceeds the configured minimum threshold — a successful pipeline
result comes from an accepted offset whose confidence is above the
threshold — and when no candidate shift's confidence exceeds the threshold
the pipeline fails closed with `AlignmentError` and produces no
composite. -/
theorem stitch_pipeline_confidence_gate (left right : RasterImage)
    (cands : List (Int × ℚ)) (min_conf : ℚ) :
    ((∀ c ∈ cands, c.2 ≤ min_conf) →
      stitch_pipeline left right cands min_conf = .error (.alignment .belowThreshold)) ∧
    (∀ img, stitch_pipeline left right cands min_conf = .ok img →
      ∃ off, estimate_overlap cands min_conf = .ok off ∧ min_conf < off.confidence ∧
        seam_blend left right off = .ok img) := by
  constructor
  · intro hall
    unfold stitch_pipeline
    rw [estimate_overlap_below cands min_conf hall]
  · intro img h
    unfold stitch_pipeline at h
    split at h
    next e heq => exact Except.noConfusion h
    next off heq =>
      split at h
      next e2 heq2 => exact Except.noConfusion h
      next img2 heq2 =>
        refine ⟨off, heq, estimate_overlap_conf cands min_conf off heq, ?_⟩
        rw [heq2, Except.ok.inj h]

/-- Concrete instantiation of `stitch_pipeline_confidence_gate`. -/
theorem stitch_pipeline_confidence_gate_witness :
    stitch_pipeline imgL imgR candsLow (1/10) = .error (.alignment .belowThreshold) ∧
    (∃ off, estimate_overlap candsGood 0 = .ok off ∧ (0 : ℚ) < off.confidence ∧
      seam_blend imgL imgR off = .ok (seam_blend_image imgL imgR offW)) :=
  ⟨(stitch_pipeline_confidence_gate imgL imgR candsLow (1/10)).1 (by
      intro c hc
      simp only [candsLow, List.mem_singleton] at hc
      subst hc
      norm_num),
   (stitch_pipeline_confidence_gate imgL imgR candsGood 0).2
      (seam_blend_image imgL imgR offW) rfl⟩
